import Mathlib

/-!
Shallow embedding of the homework25 repository: a collection of Django-Ninja
CRUD services (blog, e-commerce, library, movies, students, task manager)
sharing one bearer-token authentication module.  Database tables are embedded
as Lean lists of structures, Django ORM lookups (`get`, `get_object_or_404`,
`filter ... exists`) as `List.find?` / `List.any`, `DecimalField` as `ℚ`,
`IntegerField` as `ℤ`, and nullable columns as `Option`.  Each HTTP handler
becomes a function from state and request data to a new state and a response;
`transaction.atomic` is modelled by returning the unchanged input state on
every error outcome (an exception aborts the transaction, so the commit never
happens).
-/

namespace Homework25

/-! ## shared_auth: token store and bearer authentication gate -/

namespace SharedAuth

/-- A row of Django's auth user table, restricted to the fields the embedded
handlers read. -/
structure User where
  id : Nat
  username : String
  password : String
  is_staff : Bool
deriving Repr, DecidableEq

/-- shared_auth.models.AuthToken: `key` is a UUID primary key, `user` a
OneToOneField (at most one token row per user, enforced by the database). -/
structure AuthToken where
  key : String
  userId : Nat
deriving Repr, DecidableEq

/-- State of the authentication module: the user table, the token table and a
counter feeding the `uuid.uuid4` default of `AuthToken.key`. -/
structure AuthState where
  users : List User
  tokens : List AuthToken
  uuidCounter : Nat
deriving Repr, DecidableEq

/-- Model of `uuid.uuid4`: the n-th fresh key the generator yields. -/
def freshUuid (n : Nat) : String :=
  "uuid-" ++ toString n

/-- shared_auth.auth.BearerTokenAuth.authenticate: look the token string up in
the AuthToken table (`AuthToken.objects.get(key=token)`) and return the
associated user's identity, or `none` when no such row exists
(`AuthToken.DoesNotExist`). -/
def authenticate (s : AuthState) (token : String) : Option Nat :=
  (s.tokens.find? (fun t => t.key == token)).map (fun t => t.userId)

/-- Outcome of calling a protected endpoint through the router's auth gate. -/
inductive Protected (α : Type) where
  | unauthorized : Protected α
  | handled (result : α) : Protected α
deriving Repr, DecidableEq

/-- Django-Ninja dispatch for a router with `auth=bearer_auth`: when
`authenticate` yields `none` the framework answers 401 and the handler body is
never entered; otherwise the handler runs with `request.auth` set. -/
def protectedEndpoint {α : Type} (s : AuthState) (token : String)
    (handler : Nat → α) : Protected α :=
  match authenticate s token with
  | none => Protected.unauthorized
  | some uid => Protected.handled (handler uid)

/-- django.contrib.auth.authenticate: find the user matching the supplied
credentials, `none` on a mismatch. -/
def checkCredentials (s : AuthState) (username password : String) : Option User :=
  s.users.find? (fun u => u.username == username && u.password == password)

/-- AuthToken.objects.get_or_create(user=user): return the existing token row
for the user when present, else insert a fresh one whose key comes from the
uuid4 default. -/
def getOrCreateToken (s : AuthState) (user : User) : AuthState × AuthToken :=
  match s.tokens.find? (fun t => t.userId == user.id) with
  | some t => (s, t)
  | none =>
    let t : AuthToken := { key := freshUuid s.uuidCounter, userId := user.id }
    ({ s with tokens := s.tokens ++ [t], uuidCounter := s.uuidCounter + 1 }, t)

/-- Response of the login endpoint. -/
inductive LoginResult where
  | token (key : String) : LoginResult
  | invalidCredentials : LoginResult
deriving Repr, DecidableEq

/-- shared_auth.api.login: authenticate the credentials; on success
get-or-create the user's AuthToken and return its key, otherwise raise
HttpError 401 "Invalid credentials". -/
def login (s : AuthState) (username password : String) : AuthState × LoginResult :=
  match checkCredentials s username password with
  | some user =>
    let su := getOrCreateToken s user
    (su.1, LoginResult.token su.2.key)
  | none => (s, LoginResult.invalidCredentials)

end SharedAuth

/-! ## blog: posts with author-ownership checks -/

namespace Blog

/-- blog.models.Post, with its many-to-many tag set flattened to the list of
tag ids; timestamps are irrelevant to the verified claims and omitted. -/
structure Post where
  id : Nat
  title : String
  content : String
  authorId : Nat
  tagIds : List Nat
deriving Repr, DecidableEq

/-- blog.schemas.PostIn: title, content and tag_ids are all required fields. -/
structure PostIn where
  title : String
  content : String
  tag_ids : List Nat
deriving Repr, DecidableEq

/-- State of the blog module: the Post table. -/
structure BlogState where
  posts : List Post
deriving Repr, DecidableEq

/-- Response of update_post. -/
inductive UpdatePostResult where
  | ok (post : Post) : UpdatePostResult
  | notFound : UpdatePostResult
deriving Repr, DecidableEq

/-- blog.api.update_post: `get_object_or_404(Post, id=post_id, author=user)`
answers 404 when no post matches both the id and the author; otherwise the
payload's fields are written (`tag_ids` through `post.tags.set`) and the post
saved. -/
def update_post (s : BlogState) (userId postId : Nat) (payload : PostIn) :
    BlogState × UpdatePostResult :=
  match s.posts.find? (fun p => p.id == postId && p.authorId == userId) with
  | none => (s, UpdatePostResult.notFound)
  | some post =>
    let post1 : Post :=
      { post with title := payload.title, content := payload.content,
                  tagIds := payload.tag_ids }
    ({ s with posts := s.posts.map (fun q => if q.id == post.id then post1 else q) },
     UpdatePostResult.ok post1)

/-- Response of delete_post. -/
inductive DeletePostResult where
  | deleted : DeletePostResult
  | notFound : DeletePostResult
deriving Repr, DecidableEq

/-- blog.api.delete_post: `get_object_or_404(Post, id=post_id, author=user)`,
then delete the row and answer 204. -/
def delete_post (s : BlogState) (userId postId : Nat) :
    BlogState × DeletePostResult :=
  match s.posts.find? (fun p => p.id == postId && p.authorId == userId) with
  | none => (s, DeletePostResult.notFound)
  | some post =>
    ({ s with posts := s.posts.filter (fun q => !(q.id == post.id)) },
     DeletePostResult.deleted)

end Blog

/-! ## task_manager: tasks with user-ownership checks -/

namespace TaskMgr

/-- task_manager.models.Task, restricted to the fields delete_task reads. -/
structure Task where
  id : Nat
  title : String
  userId : Nat
deriving Repr, DecidableEq

/-- State of the task_manager module: the Task table. -/
structure TaskState where
  tasks : List Task
deriving Repr, DecidableEq

/-- Response of delete_task. -/
inductive DeleteTaskResult where
  | deleted : DeleteTaskResult
  | notFound : DeleteTaskResult
deriving Repr, DecidableEq

/-- task_manager.api.delete_task: `get_object_or_404(Task, id=task_id,
user=user)` answers 404 when no task matches both the id and the owner;
otherwise the row is deleted and the endpoint answers 204. -/
def delete_task (s : TaskState) (userId taskId : Nat) :
    TaskState × DeleteTaskResult :=
  match s.tasks.find? (fun t => t.id == taskId && t.userId == userId) with
  | none => (s, DeleteTaskResult.notFound)
  | some task =>
    ({ s with tasks := s.tasks.filter (fun q => !(q.id == task.id)) },
     DeleteTaskResult.deleted)

end TaskMgr

/-! ## Aggregates: movie rating average and student grade average -/

namespace Aggregates

/-- Django's Avg aggregate: `none` over an empty set (SQL NULL), otherwise the
arithmetic mean. -/
def aggregateAvg (vals : List ℚ) : Option ℚ :=
  match vals with
  | [] => none
  | _ => some (vals.sum / vals.length)

/-- Python's `x or default` applied to an optional float: `None` and `0.0` are
both falsy, every other float is truthy. -/
def pyOrFloat (x : Option ℚ) (dflt : ℚ) : ℚ :=
  match x with
  | none => dflt
  | some v => if v = 0 then dflt else v

/-- movies.models.Rating, restricted to the fields average_rating reads. -/
structure Rating where
  movieId : Nat
  userId : Nat
  value : ℤ
deriving Repr, DecidableEq

/-- The rating rows attached to a movie (`self.ratings`), as their values. -/
def ratingValuesOf (ratings : List Rating) (movieId : Nat) : List ℚ :=
  (ratings.filter (fun r => r.movieId == movieId)).map (fun r => (r.value : ℚ))

/-- movies.models.Movie.average_rating:
`self.ratings.aggregate(models.Avg('value'))['value__avg'] or 0.0`. -/
def average_rating (ratings : List Rating) (movieId : Nat) : ℚ :=
  pyOrFloat (aggregateAvg (ratingValuesOf ratings movieId)) 0

/-- students.models.Enrollment, restricted to the fields the average endpoint
reads. -/
structure Enrollment where
  id : Nat
  studentId : Nat
  courseId : Nat
deriving Repr, DecidableEq

/-- students.models.Grade, restricted to the fields the average endpoint
reads. -/
structure Grade where
  enrollmentId : Nat
  score : ℤ
deriving Repr, DecidableEq

/-- Response of get_student_course_average. -/
inductive AvgResult where
  | ok (average_score : ℚ) : AvgResult
  | notFound : AvgResult
deriving Repr, DecidableEq

/-- The grade rows attached to an enrollment (`enrollment.grades`), as their
scores. -/
def gradeScoresOf (grades : List Grade) (enrollmentId : Nat) : List ℚ :=
  (grades.filter (fun g => g.enrollmentId == enrollmentId)).map
    (fun g => (g.score : ℚ))

/-- students.api.get_student_course_average: `get_object_or_404(Enrollment,
student_id=..., course_id=...)`, then
`enrollment.grades.aggregate(Avg('score'))['score__avg'] or 0.0`. -/
def get_student_course_average (enrollments : List Enrollment)
    (grades : List Grade) (studentId courseId : Nat) : AvgResult :=
  match enrollments.find?
      (fun e => e.studentId == studentId && e.courseId == courseId) with
  | none => AvgResult.notFound
  | some e => AvgResult.ok (pyOrFloat (aggregateAvg (gradeScoresOf grades e.id)) 0)

end Aggregates

/-! ## library: book rentals -/

namespace Library

/-- library.models.Book, restricted to the fields rent_book reads. -/
structure Book where
  id : Nat
  title : String
  total_copies : ℤ
deriving Repr, DecidableEq

/-- library.models.Rental: `return_date` is a nullable timestamp; `none` while
the rental is open. -/
structure Rental where
  id : Nat
  bookId : Nat
  userId : Nat
  return_date : Option Nat
deriving Repr, DecidableEq

/-- State of the library module: the Book and Rental tables, plus the next
autoincrement id for Rental rows. -/
structure LibState where
  books : List Book
  rentals : List Rental
  nextRentalId : Nat
deriving Repr, DecidableEq

/-- library.models.Book.available_copies: `total_copies` minus the number of
open rentals of the book (`self.rentals.filter(return_date__isnull=True)
.count()`). -/
def available_copies (s : LibState) (b : Book) : ℤ :=
  b.total_copies -
    ((s.rentals.filter
        (fun r => r.bookId == b.id && r.return_date.isNone)).length : ℤ)

/-- The duplicate-rental check of rent_book:
`book.rentals.filter(user=user, return_date__isnull=True).exists()`. -/
def hasOpenRental (s : LibState) (userId bookId : Nat) : Bool :=
  s.rentals.any
    (fun r => r.bookId == bookId && r.userId == userId && r.return_date.isNone)

/-- Outcome of rent_book. -/
inductive RentResult where
  | created (r : Rental) : RentResult
  | bookNotFound : RentResult
  | typeErrorCrash : RentResult
  | noCopies : RentResult
deriving Repr, DecidableEq

/-- library.api.rent_book, under transaction.atomic: look the book up
(`get_object_or_404`); when the user already has an open rental of it the
source executes `raise (404, "Ця книга уже арендована вами!")`, which raises a
tuple — Python rejects a non-exception operand of `raise` with a TypeError, so
the request dies as an unhandled server error (`typeErrorCrash`); when
`available_copies <= 0` it raises HttpError 400; otherwise it inserts the
Rental row.  Every exception aborts the atomic block, so the state is returned
unchanged on all error outcomes. -/
def rent_book (s : LibState) (userId bookId : Nat) : LibState × RentResult :=
  match s.books.find? (fun b => b.id == bookId) with
  | none => (s, RentResult.bookNotFound)
  | some book =>
    if hasOpenRental s userId book.id then
      (s, RentResult.typeErrorCrash)
    else if available_copies s book ≤ 0 then
      (s, RentResult.noCopies)
    else
      let r : Rental :=
        { id := s.nextRentalId, bookId := book.id, userId := userId,
          return_date := none }
      ({ s with rentals := s.rentals ++ [r],
                nextRentalId := s.nextRentalId + 1 },
       RentResult.created r)

end Library

/-! ## e_commerce: cart checkout and order status updates -/

namespace ECommerce

/-- e_commerce.models.Product. -/
structure Product where
  id : Nat
  name : String
  price : ℚ
  stock : ℤ
  is_active : Bool
deriving Repr, DecidableEq

/-- e_commerce.models.CartItem (the cart foreign key is implicit in the
enclosing Cart). -/
structure CartItem where
  productId : Nat
  quantity : ℤ
deriving Repr, DecidableEq

/-- e_commerce.models.Cart: one cart per user (OneToOneField), with its
CartItem rows inlined. -/
structure Cart where
  userId : Nat
  items : List CartItem
deriving Repr, DecidableEq

/-- e_commerce.models.OrderItem: freezes the product's price at checkout. -/
structure OrderItem where
  productId : Nat
  quantity : ℤ
  price_at_purchase : ℚ
deriving Repr, DecidableEq

/-- e_commerce.models.Order, with its OrderItem rows inlined. -/
structure Order where
  id : Nat
  userId : Nat
  status : String
  total_amount : ℚ
  items : List OrderItem
deriving Repr, DecidableEq

/-- State of the e_commerce module. -/
structure Shop where
  products : List Product
  carts : List Cart
  orders : List Order
  nextOrderId : Nat
deriving Repr, DecidableEq

/-- Error raised inside the checkout loop. -/
inductive LoopErr where
  | stockErr (productName : String) : LoopErr
  | integrityErr : LoopErr
deriving Repr, DecidableEq

/-- The stock write of the checkout loop: `product.stock -= quantity;
product.save()` persists the decrement on the product row with the given id. -/
def stockMap (products : List Product) (pid : Nat) (quantity : ℤ) :
    List Product :=
  products.map (fun p =>
    if p.id == pid then { p with stock := p.stock - quantity } else p)

/-- The for-loop of create_order over the cart's items: for each item, find
its product (`item.product`, resolved by foreign-key integrity — the
`integrityErr` branch is unreachable against a consistent database), raise
HttpError 400 naming the product when `product.stock < item.quantity`, else
append the OrderItem with `price_at_purchase = product.price`, add
`product.price * item.quantity` to the running total and persist
`product.stock -= item.quantity`. -/
def checkoutLoop (products : List Product) (items : List CartItem)
    (ois : List OrderItem) (total : ℚ) :
    Except LoopErr (List Product × List OrderItem × ℚ) :=
  match items with
  | [] => Except.ok (products, ois, total)
  | item :: rest =>
    match products.find? (fun p => p.id == item.productId) with
    | none => Except.error LoopErr.integrityErr
    | some product =>
      if product.stock < item.quantity then
        Except.error (LoopErr.stockErr product.name)
      else
        checkoutLoop
          (stockMap products product.id item.quantity)
          rest
          (ois ++ [{ productId := product.id, quantity := item.quantity,
                     price_at_purchase := product.price }])
          (total + product.price * item.quantity)

/-- Outcome of create_order. -/
inductive CheckoutResult where
  | created (o : Order) : CheckoutResult
  | cartNotFound : CheckoutResult
  | emptyCart : CheckoutResult
  | insufficientStock (productName : String) : CheckoutResult
  | integrityError : CheckoutResult
deriving Repr, DecidableEq

/-- e_commerce.api.create_order, under transaction.atomic: 404 when the user
has no Cart row (`get_object_or_404(Cart, user=user)`), HttpError 400 when the
cart has no items, then the checkout loop; on success the Order row (created
with status PENDING and updated with the computed total), its OrderItem rows
and the stock updates are committed and the cart's items are deleted.  An
exception aborts the atomic block, so every error outcome returns the input
state unchanged — in particular a stock failure on a later item rolls back the
stock decrements already executed for earlier items. -/
def create_order (s : Shop) (userId : Nat) : Shop × CheckoutResult :=
  match s.carts.find? (fun c => c.userId == userId) with
  | none => (s, CheckoutResult.cartNotFound)
  | some cart =>
    if cart.items.isEmpty then (s, CheckoutResult.emptyCart)
    else
      match checkoutLoop s.products cart.items [] 0 with
      | Except.error (LoopErr.stockErr n) => (s, CheckoutResult.insufficientStock n)
      | Except.error LoopErr.integrityErr => (s, CheckoutResult.integrityError)
      | Except.ok (products1, ois, total) =>
        let order : Order :=
          { id := s.nextOrderId, userId := userId, status := "PENDING",
            total_amount := total, items := ois }
        ({ s with
            products := products1,
            orders := s.orders ++ [order],
            carts := s.carts.map (fun c =>
              if c.userId == userId then { c with items := [] } else c),
            nextOrderId := s.nextOrderId + 1 },
         CheckoutResult.created order)

/-- Outcome of update_order_status. -/
inductive StatusResult where
  | updated (o : Order) : StatusResult
  | invalidStatus : StatusResult
  | orderNotFound : StatusResult
  | forbiddenReturned : StatusResult
deriving Repr, DecidableEq

/-- The status strings update_order_status accepts. -/
def validStatuses : List String :=
  ["PENDING", "SHIPPED", "DELIVERED", "CANCELED"]

/-- e_commerce.api.update_order_status: HttpError 403 when the payload status
is not in the allowed list; for staff, `get_object_or_404(Order, id=order_id)`
then write the status; for a non-staff user requesting CANCELED,
`get_object_or_404(Order, id=order_id, user=user, status='PENDING')` then
write the status; otherwise the source returns (instead of raising) an
HttpError object — the handler ends without touching any order, modelled as
`forbiddenReturned`. -/
def update_order_status (s : Shop) (userId : Nat) (is_staff : Bool)
    (orderId : Nat) (newStatus : String) : Shop × StatusResult :=
  if validStatuses.contains newStatus = false then
    (s, StatusResult.invalidStatus)
  else if is_staff then
    match s.orders.find? (fun o => o.id == orderId) with
    | none => (s, StatusResult.orderNotFound)
    | some order =>
      let order1 := { order with status := newStatus }
      ({ s with orders := s.orders.map (fun o =>
          if o.id == order.id then order1 else o) },
       StatusResult.updated order1)
  else if newStatus == "CANCELED" then
    match s.orders.find? (fun o =>
        o.id == orderId && (o.userId == userId && o.status == "PENDING")) with
    | none => (s, StatusResult.orderNotFound)
    | some order =>
      let order1 := { order with status := newStatus }
      ({ s with orders := s.orders.map (fun o =>
          if o.id == order.id then order1 else o) },
       StatusResult.updated order1)
  else
    (s, StatusResult.forbiddenReturned)

/-- The stock column of the product row with the given id, when present. -/
def stockOf (products : List Product) (pid : Nat) : Option ℤ :=
  (products.find? (fun p => p.id == pid)).map (fun p => p.stock)

/-- The price column of the product row with the given id, when present. -/
def priceOf (products : List Product) (pid : Nat) : Option ℚ :=
  (products.find? (fun p => p.id == pid)).map (fun p => p.price)

/-- Total quantity the cart items request of one product. -/
def qtyIn (items : List CartItem) (pid : Nat) : ℤ :=
  ((items.filter (fun it => it.productId == pid)).map
    (fun it => it.quantity)).sum

/-- The items of the user's cart, empty when no cart row exists. -/
def cartItemsOf (s : Shop) (userId : Nat) : List CartItem :=
  ((s.carts.find? (fun c => c.userId == userId)).map (fun c => c.items)).getD []

/-- The OrderItem the checkout loop builds for one cart item, phrased against
the product table it reads the price from. -/
def itemOf (products : List Product) (it : CartItem) : OrderItem :=
  { productId := it.productId, quantity := it.quantity,
    price_at_purchase := (priceOf products it.productId).getD 0 }

/-- The product row a cart item references (`item.product`). -/
def productFor (products : List Product) (it : CartItem) : Option Product :=
  products.find? (fun p => p.id == it.productId)

/-- Whether the referenced product exists and covers the requested quantity. -/
def stockSufficient (products : List Product) (it : CartItem) : Bool :=
  match productFor products it with
  | some p => decide (it.quantity ≤ p.stock)
  | none => false

/-- Whether the referenced product exists but the requested quantity exceeds
its stock. -/
def stockShort (products : List Product) (it : CartItem) : Bool :=
  match productFor products it with
  | some p => decide (p.stock < it.quantity)
  | none => false

end ECommerce

/-! ## Theorems -/

/-- C7: for every token string that is not the key of any stored AuthToken,
BearerTokenAuth.authenticate resolves it to no identity (returns none), and no
protected handler executes for such a token, regardless of which endpoint is
being called. -/
theorem c7_unknown_token_rejected (s : SharedAuth.AuthState) (token : String)
    (h : ∀ t ∈ s.tokens, t.key ≠ token) :
    SharedAuth.authenticate s token = none ∧
    ∀ (α : Type) (handler : Nat → α),
      SharedAuth.protectedEndpoint s token handler =
        SharedAuth.Protected.unauthorized := by
  have hfind : s.tokens.find? (fun t => t.key == token) = none := by
    rw [List.find?_eq_none]
    intro t ht
    simpa using h t ht
  refine ⟨?_, ?_⟩
  · simp [SharedAuth.authenticate, hfind]
  · intro α handler
    simp [SharedAuth.protectedEndpoint, SharedAuth.authenticate, hfind]

/-- Witness for C7 at a concrete state holding one token. -/
theorem c7_witness :
    SharedAuth.authenticate
      ⟨[⟨1, "u", "p", false⟩], [⟨"uuid-0", 1⟩], 1⟩ "unknown" = none :=
  (c7_unknown_token_rejected ⟨[⟨1, "u", "p", false⟩], [⟨"uuid-0", 1⟩], 1⟩
    "unknown" (by decide)).1

/-- C10: for every authenticated user for whom no Cart row exists, create_order
answers the 404 branch of get_object_or_404 (not the 400 empty-cart business
error) and leaves the state unchanged, so no order is created. -/
theorem c10_checkout_without_cart_is_404 (s : ECommerce.Shop) (userId : Nat)
    (h : s.carts.find? (fun c => c.userId == userId) = none) :
    ECommerce.create_order s userId = (s, ECommerce.CheckoutResult.cartNotFound) ∧
    ECommerce.CheckoutResult.cartNotFound ≠ ECommerce.CheckoutResult.emptyCart := by
  refine ⟨?_, by decide⟩
  simp [ECommerce.create_order, h]

/-- Witness for C10 at a concrete shop without a cart row for user 2. -/
theorem c10_witness :
    ECommerce.create_order ⟨[], [⟨1, []⟩], [], 1⟩ 2 =
      (⟨[], [⟨1, []⟩], [], 1⟩, ECommerce.CheckoutResult.cartNotFound) :=
  (c10_checkout_without_cart_is_404 ⟨[], [⟨1, []⟩], [], 1⟩ 2 (by decide)).1

/-- C9: a movie with zero ratings gets average_rating exactly 0, and a
(student, course) enrollment with zero grades gets average_score exactly 0 in
the response; neither is a null value. -/
theorem c9_empty_aggregates_are_zero
    (ratings : List Aggregates.Rating) (movieId : Nat)
    (enrollments : List Aggregates.Enrollment) (grades : List Aggregates.Grade)
    (studentId courseId : Nat) (e : Aggregates.Enrollment)
    (hm : Aggregates.ratingValuesOf ratings movieId = [])
    (he : enrollments.find?
      (fun x => x.studentId == studentId && x.courseId == courseId) = some e)
    (hg : Aggregates.gradeScoresOf grades e.id = []) :
    Aggregates.average_rating ratings movieId = 0 ∧
    Aggregates.get_student_course_average enrollments grades studentId courseId =
      Aggregates.AvgResult.ok 0 := by
  constructor
  · simp [Aggregates.average_rating, hm, Aggregates.aggregateAvg,
      Aggregates.pyOrFloat]
  · simp [Aggregates.get_student_course_average, he, hg,
      Aggregates.aggregateAvg, Aggregates.pyOrFloat]

/-- Witness for C9: one movie with no ratings, one enrollment with no grades. -/
theorem c9_witness :
    Aggregates.average_rating [] 1 = 0 ∧
    Aggregates.get_student_course_average [⟨5, 1, 2⟩] [] 1 2 =
      Aggregates.AvgResult.ok 0 :=
  c9_empty_aggregates_are_zero [] 1 [⟨5, 1, 2⟩] [] 1 2 ⟨5, 1, 2⟩
    (by rfl) (by rfl) (by rfl)

/-- C5 (code evaluated at the failing input): a second rent attempt by user 7,
who already holds the open rental of book 1, makes rent_book execute
`raise (404, ...)` — raising a tuple, which Python rejects with a TypeError —
so the request ends as an unhandled server crash, not as a structured client
error naming the duplicate-active-rental rule. -/
theorem c5_duplicate_rental_crashes :
    Library.rent_book ⟨[⟨1, "T", 2⟩], [⟨1, 1, 7, none⟩], 2⟩ 7 1 =
      (⟨[⟨1, "T", 2⟩], [⟨1, 1, 7, none⟩], 2⟩, Library.RentResult.typeErrorCrash) := by
  rfl

/-- C6: a mutation request by a non-owner on an existing resource produces a
result identical to the result for an id that does not exist at all — the
uniform not-found answer with the state untouched — for update_post,
delete_post and delete_task alike. -/
theorem c6_nonowner_indistinguishable_from_missing
    (bs : Blog.BlogState) (ts : TaskMgr.TaskState) (requester : Nat)
    (postId missingPostId taskId missingTaskId : Nat) (payload : Blog.PostIn)
    (hpost : ∀ p ∈ bs.posts, p.id = postId → p.authorId ≠ requester)
    (hpostMissing : ∀ p ∈ bs.posts, p.id ≠ missingPostId)
    (htask : ∀ t ∈ ts.tasks, t.id = taskId → t.userId ≠ requester)
    (htaskMissing : ∀ t ∈ ts.tasks, t.id ≠ missingTaskId) :
    Blog.update_post bs requester postId payload =
      Blog.update_post bs requester missingPostId payload ∧
    Blog.update_post bs requester postId payload =
      (bs, Blog.UpdatePostResult.notFound) ∧
    Blog.delete_post bs requester postId =
      Blog.delete_post bs requester missingPostId ∧
    Blog.delete_post bs requester postId = (bs, Blog.DeletePostResult.notFound) ∧
    TaskMgr.delete_task ts requester taskId =
      TaskMgr.delete_task ts requester missingTaskId ∧
    TaskMgr.delete_task ts requester taskId = (ts, TaskMgr.DeleteTaskResult.notFound) := by
  have h1 : bs.posts.find? (fun p => p.id == postId && p.authorId == requester) = none := by
    rw [List.find?_eq_none]
    intro p hp
    simp only [Bool.and_eq_true, beq_iff_eq, not_and]
    exact hpost p hp
  have h2 : bs.posts.find?
      (fun p => p.id == missingPostId && p.authorId == requester) = none := by
    rw [List.find?_eq_none]
    intro p hp
    simp only [Bool.and_eq_true, beq_iff_eq, not_and]
    intro hid
    exact absurd hid (hpostMissing p hp)
  have h3 : ts.tasks.find? (fun t => t.id == taskId && t.userId == requester) = none := by
    rw [List.find?_eq_none]
    intro t ht
    simp only [Bool.and_eq_true, beq_iff_eq, not_and]
    exact htask t ht
  have h4 : ts.tasks.find?
      (fun t => t.id == missingTaskId && t.userId == requester) = none := by
    rw [List.find?_eq_none]
    intro t ht
    simp only [Bool.and_eq_true, beq_iff_eq, not_and]
    intro hid
    exact absurd hid (htaskMissing t ht)
  refine ⟨?_, ?_, ?_, ?_, ?_, ?_⟩ <;>
    simp [Blog.update_post, Blog.delete_post, TaskMgr.delete_task, h1, h2, h3, h4]

/-- Witness for C6: post 1 and task 1 belong to user 9; requester 5 mutating
them gets the same answer as for the absent ids 3 and 4. -/
theorem c6_witness :
    Blog.update_post ⟨[⟨1, "t", "c", 9, []⟩]⟩ 5 1 ⟨"t2", "c2", []⟩ =
      Blog.update_post ⟨[⟨1, "t", "c", 9, []⟩]⟩ 5 3 ⟨"t2", "c2", []⟩ ∧
    TaskMgr.delete_task ⟨[⟨1, "t", 9⟩]⟩ 5 1 =
      TaskMgr.delete_task ⟨[⟨1, "t", 9⟩]⟩ 5 4 := by
  have h := c6_nonowner_indistinguishable_from_missing
    ⟨[⟨1, "t", "c", 9, []⟩]⟩ ⟨[⟨1, "t", 9⟩]⟩ 5 1 3 1 4 ⟨"t2", "c2", []⟩
    (by decide) (by decide) (by decide) (by decide)
  exact ⟨h.1, h.2.2.2.2.1⟩

/-- C8: for a user with valid credentials, logging in twice returns the same
token key both times; the second issuance fetches the existing row instead of
creating one (the state is already fixed), and the one-token-per-user bound is
preserved. -/
theorem c8_login_idempotent (s : SharedAuth.AuthState)
    (username password : String) (user : SharedAuth.User)
    (hcred : SharedAuth.checkCredentials s username password = some user) :
    ∃ key s1,
      SharedAuth.login s username password = (s1, SharedAuth.LoginResult.token key) ∧
      SharedAuth.login s1 username password = (s1, SharedAuth.LoginResult.token key) ∧
      s1.users = s.users ∧
      ((s.tokens.filter (fun t => t.userId == user.id)).length ≤ 1 →
        (s1.tokens.filter (fun t => t.userId == user.id)).length ≤ 1) := by
  cases hfind : s.tokens.find? (fun t => t.userId == user.id) with
  | some t =>
    refine ⟨t.key, s, ?_, ?_, rfl, fun h => h⟩ <;>
      simp [SharedAuth.login, hcred, SharedAuth.getOrCreateToken, hfind]
  | none =>
    refine ⟨SharedAuth.freshUuid s.uuidCounter,
      { s with
          tokens := s.tokens ++ [⟨SharedAuth.freshUuid s.uuidCounter, user.id⟩],
          uuidCounter := s.uuidCounter + 1 }, ?_, ?_, rfl, ?_⟩
    · simp [SharedAuth.login, hcred, SharedAuth.getOrCreateToken, hfind]
    · have hcred1 : SharedAuth.checkCredentials
          { s with
              tokens := s.tokens ++ [⟨SharedAuth.freshUuid s.uuidCounter, user.id⟩],
              uuidCounter := s.uuidCounter + 1 } username password = some user := hcred
      have hfind1 : (s.tokens ++
          [(⟨SharedAuth.freshUuid s.uuidCounter, user.id⟩ : SharedAuth.AuthToken)]).find?
            (fun t => t.userId == user.id) =
          some ⟨SharedAuth.freshUuid s.uuidCounter, user.id⟩ := by
        rw [List.find?_append, hfind]
        simp
      simp [SharedAuth.login, hcred1, SharedAuth.getOrCreateToken, hfind1]
    · intro _
      have hnil : s.tokens.filter (fun t => t.userId == user.id) = [] := by
        rw [List.filter_eq_nil_iff]
        rw [List.find?_eq_none] at hfind
        exact hfind
      simp [List.filter_append, hnil]

/-- Witness for C8: a first login creates the token, a second fetches it. -/
theorem c8_witness :
    ∃ key s1,
      SharedAuth.login ⟨[⟨1, "u", "p", false⟩], [], 0⟩ "u" "p" =
        (s1, SharedAuth.LoginResult.token key) ∧
      SharedAuth.login s1 "u" "p" = (s1, SharedAuth.LoginResult.token key) ∧
      s1.users = [⟨1, "u", "p", false⟩] ∧
      ((([] : List SharedAuth.AuthToken).filter (fun t => t.userId == 1)).length ≤ 1 →
        (s1.tokens.filter (fun t => t.userId == 1)).length ≤ 1) :=
  c8_login_idempotent ⟨[⟨1, "u", "p", false⟩], [], 0⟩ "u" "p"
    ⟨1, "u", "p", false⟩ (by rfl)

/-- C4: rent_book inserts a Rental row only when the requester holds no open
rental of the book and available_copies is positive; with available_copies = 0
the call always fails and leaves the state unchanged. -/
theorem c4_rent_book_requires_availability (s : Library.LibState)
    (userId bookId : Nat) (book : Library.Book)
    (hbook : s.books.find? (fun b => b.id == bookId) = some book) :
    ((∃ r, (Library.rent_book s userId bookId).2 = Library.RentResult.created r) →
      Library.hasOpenRental s userId book.id = false ∧
      0 < Library.available_copies s book) ∧
    (Library.available_copies s book = 0 →
      (∀ r, (Library.rent_book s userId bookId).2 ≠ Library.RentResult.created r) ∧
      (Library.rent_book s userId bookId).1 = s) := by
  by_cases hdup : Library.hasOpenRental s userId book.id
  · constructor
    · rintro ⟨r, hr⟩
      simp [Library.rent_book, hbook, hdup] at hr
    · intro _
      constructor
      · intro r
        simp [Library.rent_book, hbook, hdup]
      · simp [Library.rent_book, hbook, hdup]
  · by_cases hav : Library.available_copies s book ≤ 0
    · constructor
      · rintro ⟨r, hr⟩
        simp [Library.rent_book, hbook, hdup, hav] at hr
      · intro _
        constructor
        · intro r
          simp [Library.rent_book, hbook, hdup, hav]
        · simp [Library.rent_book, hbook, hdup, hav]
    · constructor
      · intro _
        exact ⟨by simpa using hdup, by omega⟩
      · intro h0
        omega

/-- Witness for C4 at a book whose single copy is rented out. -/
theorem c4_witness :
    ((∃ r, (Library.rent_book ⟨[⟨1, "T", 1⟩], [⟨1, 1, 7, none⟩], 2⟩ 8 1).2 =
        Library.RentResult.created r) →
      Library.hasOpenRental ⟨[⟨1, "T", 1⟩], [⟨1, 1, 7, none⟩], 2⟩ 8 1 = false ∧
      0 < Library.available_copies ⟨[⟨1, "T", 1⟩], [⟨1, 1, 7, none⟩], 2⟩ ⟨1, "T", 1⟩) ∧
    (Library.available_copies ⟨[⟨1, "T", 1⟩], [⟨1, 1, 7, none⟩], 2⟩ ⟨1, "T", 1⟩ = 0 →
      (∀ r, (Library.rent_book ⟨[⟨1, "T", 1⟩], [⟨1, 1, 7, none⟩], 2⟩ 8 1).2 ≠
        Library.RentResult.created r) ∧
      (Library.rent_book ⟨[⟨1, "T", 1⟩], [⟨1, 1, 7, none⟩], 2⟩ 8 1).1 =
        ⟨[⟨1, "T", 1⟩], [⟨1, 1, 7, none⟩], 2⟩) :=
  c4_rent_book_requires_availability ⟨[⟨1, "T", 1⟩], [⟨1, 1, 7, none⟩], 2⟩
    8 1 ⟨1, "T", 1⟩ (by rfl)

/-- Helper: with order ids unique (the primary key), a lookup filtered by the
id and an extra condition returns the id-matched row exactly when that row
meets the condition. -/
theorem order_find?_id_and_of_nodup (l : List ECommerce.Order) (oid : Nat)
    (order : ECommerce.Order) (q : ECommerce.Order → Bool)
    (hnd : (l.map ECommerce.Order.id).Nodup)
    (h : l.find? (fun o => o.id == oid) = some order) :
    l.find? (fun o => o.id == oid && q o) =
      if q order then some order else none := by
  induction l with
  | nil => simp at h
  | cons a tl ih =>
    rw [List.map_cons, List.nodup_cons] at hnd
    by_cases ha : a.id = oid
    · rw [List.find?_cons_of_pos tl (by simpa using ha)] at h
      obtain rfl : a = order := by simpa using h
      by_cases hq : q a
      · rw [if_pos hq]
        exact List.find?_cons_of_pos tl (by simp [ha, hq])
      · rw [if_neg hq]
        rw [List.find?_cons_of_neg tl (by simp [hq])]
        rw [List.find?_eq_none]
        intro o ho
        simp only [Bool.and_eq_true, beq_iff_eq, not_and]
        intro hoid _
        exact hnd.1 (by
          rw [ha, ← hoid]
          exact List.mem_map.mpr ⟨o, ho, rfl⟩)
    · rw [List.find?_cons_of_neg tl (by simpa using ha)] at h
      rw [List.find?_cons_of_neg tl (by simp [ha])]
      exact ih hnd.2 h

/-- C3: with the order present, update_order_status succeeds exactly when the
requester is staff and the status is one of PENDING, SHIPPED, DELIVERED,
CANCELED, or the requester is a non-staff owner of a PENDING order requesting
CANCELED; every other combination yields an error outcome and leaves the
state, hence the order's status, unchanged. -/
theorem c3_update_order_status_policy (s : ECommerce.Shop) (userId : Nat)
    (is_staff : Bool) (orderId : Nat) (newStatus : String)
    (order : ECommerce.Order)
    (hnd : (s.orders.map ECommerce.Order.id).Nodup)
    (horder : s.orders.find? (fun o => o.id == orderId) = some order) :
    ((∃ o, (ECommerce.update_order_status s userId is_staff orderId newStatus).2 =
        ECommerce.StatusResult.updated o) ↔
      (is_staff = true ∧ newStatus ∈ ECommerce.validStatuses) ∨
      (is_staff = false ∧ order.userId = userId ∧ order.status = "PENDING" ∧
        newStatus = "CANCELED")) ∧
    ((∀ o, (ECommerce.update_order_status s userId is_staff orderId newStatus).2 ≠
        ECommerce.StatusResult.updated o) →
      (ECommerce.update_order_status s userId is_staff orderId newStatus).1 = s) := by
  by_cases hc : ECommerce.validStatuses.contains newStatus = false
  · have hmem : newStatus ∉ ECommerce.validStatuses := by
      intro hm
      rw [show ECommerce.validStatuses.contains newStatus =
        ECommerce.validStatuses.elem newStatus from rfl, List.elem_iff.mpr hm] at hc
      simp at hc
    have hcan : newStatus ≠ "CANCELED" := by
      intro hEq
      exact hmem (by rw [hEq]; simp [ECommerce.validStatuses])
    have hres : ECommerce.update_order_status s userId is_staff orderId newStatus =
        (s, ECommerce.StatusResult.invalidStatus) := by
      unfold ECommerce.update_order_status
      rw [if_pos hc]
    rw [hres]
    constructor
    · constructor
      · rintro ⟨o, ho⟩
        exact absurd ho (by simp)
      · rintro (⟨_, hm⟩ | ⟨_, _, _, hm⟩)
        · exact absurd hm hmem
        · exact absurd hm hcan
    · intro _
      rfl
  · have hmem : newStatus ∈ ECommerce.validStatuses := by
      rw [show ECommerce.validStatuses.contains newStatus =
        ECommerce.validStatuses.elem newStatus from rfl] at hc
      cases hb : ECommerce.validStatuses.elem newStatus with
      | false => exact absurd hb hc
      | true => exact List.elem_iff.mp hb
    cases is_staff with
    | true =>
      have hres : ECommerce.update_order_status s userId true orderId newStatus =
          ({ s with orders := s.orders.map (fun o =>
              if o.id == order.id then { order with status := newStatus } else o) },
           ECommerce.StatusResult.updated { order with status := newStatus }) := by
        unfold ECommerce.update_order_status
        rw [if_neg hc, if_pos rfl, horder]
      rw [hres]
      constructor
      · constructor
        · intro _
          exact Or.inl ⟨rfl, hmem⟩
        · intro _
          exact ⟨{ order with status := newStatus }, rfl⟩
      · intro hno
        exact absurd rfl (hno { order with status := newStatus })
    | false =>
      by_cases hcan : newStatus = "CANCELED"
      · subst hcan
        have hqf := order_find?_id_and_of_nodup s.orders orderId order
          (fun o => o.userId == userId && o.status == "PENDING") hnd horder
        by_cases hown : order.userId = userId ∧ order.status = "PENDING"
        · have hq : (fun o : ECommerce.Order =>
              o.userId == userId && o.status == "PENDING") order = true := by
            simp [hown.1, hown.2]
          rw [hq, if_pos rfl] at hqf
          have hres : ECommerce.update_order_status s userId false orderId "CANCELED" =
              ({ s with orders := s.orders.map (fun o =>
                  if o.id == order.id then { order with status := "CANCELED" } else o) },
               ECommerce.StatusResult.updated { order with status := "CANCELED" }) := by
            unfold ECommerce.update_order_status
            rw [if_neg hc, if_neg (by simp), if_pos (by simp), hqf]
          rw [hres]
          constructor
          · constructor
            · intro _
              exact Or.inr ⟨rfl, hown.1, hown.2, rfl⟩
            · intro _
              exact ⟨{ order with status := "CANCELED" }, rfl⟩
          · intro hno
            exact absurd rfl (hno { order with status := "CANCELED" })
        · have hq : (fun o : ECommerce.Order =>
              o.userId == userId && o.status == "PENDING") order = false := by
            rcases Decidable.not_and_iff_or_not.mp hown with h1 | h1 <;>
              simp [h1]
          rw [hq, if_neg (by simp)] at hqf
          have hres : ECommerce.update_order_status s userId false orderId "CANCELED" =
              (s, ECommerce.StatusResult.orderNotFound) := by
            unfold ECommerce.update_order_status
            rw [if_neg hc, if_neg (by simp), if_pos (by simp), hqf]
          rw [hres]
          constructor
          · constructor
            · rintro ⟨o, ho⟩
              exact absurd ho (by simp)
            · rintro (⟨hstaff, _⟩ | ⟨_, hu, hp, _⟩)
              · exact absurd hstaff (by simp)
              · exact absurd ⟨hu, hp⟩ hown
          · intro _
            rfl
      · have hres : ECommerce.update_order_status s userId false orderId newStatus =
            (s, ECommerce.StatusResult.forbiddenReturned) := by
          unfold ECommerce.update_order_status
          rw [if_neg hc, if_neg (by simp), if_neg (by simpa using hcan)]
        rw [hres]
        constructor
        · constructor
          · rintro ⟨o, ho⟩
            exact absurd ho (by simp)
          · rintro (⟨hstaff, _⟩ | ⟨_, _, _, hm⟩)
            · exact absurd hstaff (by simp)
            · exact absurd hm hcan
        · intro _
          rfl

/-- Witness for C3: a non-staff owner cancels their own PENDING order. -/
theorem c3_witness :
    ((∃ o, (ECommerce.update_order_status
        ⟨[], [], [⟨1, 7, "PENDING", 0, []⟩], 2⟩ 7 false 1 "CANCELED").2 =
        ECommerce.StatusResult.updated o) ↔
      (false = true ∧ "CANCELED" ∈ ECommerce.validStatuses) ∨
      (false = false ∧ (7 : Nat) = 7 ∧ "PENDING" = "PENDING" ∧
        "CANCELED" = "CANCELED")) ∧
    ((∀ o, (ECommerce.update_order_status
        ⟨[], [], [⟨1, 7, "PENDING", 0, []⟩], 2⟩ 7 false 1 "CANCELED").2 ≠
        ECommerce.StatusResult.updated o) →
      (ECommerce.update_order_status
        ⟨[], [], [⟨1, 7, "PENDING", 0, []⟩], 2⟩ 7 false 1 "CANCELED").1 =
        ⟨[], [], [⟨1, 7, "PENDING", 0, []⟩], 2⟩) :=
  c3_update_order_status_policy ⟨[], [], [⟨1, 7, "PENDING", 0, []⟩], 2⟩
    7 false 1 "CANCELED" ⟨1, 7, "PENDING", 0, []⟩ (by decide) (by rfl)

/-- Helper: a stock write keeps every product row in place, only changing the
stock of the row with the written id. -/
theorem find?_stockMap (products : List ECommerce.Product) (mpid rid : Nat)
    (qty : ℤ) :
    (ECommerce.stockMap products mpid qty).find? (fun q => q.id == rid) =
      (products.find? (fun q => q.id == rid)).map
        (fun p => if p.id == mpid then { p with stock := p.stock - qty } else p) := by
  unfold ECommerce.stockMap
  rw [List.find?_map]
  have hpred : ((fun q : ECommerce.Product => q.id == rid) ∘ fun p =>
      if p.id == mpid then { p with stock := p.stock - qty } else p) =
      (fun q : ECommerce.Product => q.id == rid) := by
    funext q
    by_cases h : (q.id == mpid) = true <;> simp [Function.comp, h]
  rw [hpred]

/-- Helper: the stock write decrements the stock of the written product id. -/
theorem stockOf_stockMap_eq (products : List ECommerce.Product) (mpid : Nat)
    (qty : ℤ) :
    ECommerce.stockOf (ECommerce.stockMap products mpid qty) mpid =
      (ECommerce.stockOf products mpid).map (fun z => z - qty) := by
  unfold ECommerce.stockOf
  rw [find?_stockMap]
  cases hf : products.find? (fun q => q.id == mpid) with
  | none => rfl
  | some p =>
    have hp : p.id = mpid := by simpa using List.find?_some hf
    simp [hp]

/-- Helper: the stock write leaves every other product id's stock unchanged. -/
theorem stockOf_stockMap_ne (products : List ECommerce.Product)
    (mpid rid : Nat) (qty : ℤ) (h : rid ≠ mpid) :
    ECommerce.stockOf (ECommerce.stockMap products mpid qty) rid =
      ECommerce.stockOf products rid := by
  unfold ECommerce.stockOf
  rw [find?_stockMap]
  cases hf : products.find? (fun q => q.id == rid) with
  | none => rfl
  | some p =>
    have hp : p.id = rid := by simpa using List.find?_some hf
    simp [hp, h]

/-- Helper: the stock write never changes any price. -/
theorem priceOf_stockMap (products : List ECommerce.Product)
    (mpid rid : Nat) (qty : ℤ) :
    ECommerce.priceOf (ECommerce.stockMap products mpid qty) rid =
      ECommerce.priceOf products rid := by
  unfold ECommerce.priceOf
  rw [find?_stockMap]
  cases hf : products.find? (fun q => q.id == rid) with
  | none => rfl
  | some p => by_cases h : p.id = mpid <;> simp [h]

/-- Helper: the stock write acts on product lookups through cart items. -/
theorem productFor_stockMap (products : List ECommerce.Product) (mpid : Nat)
    (qty : ℤ) (it : ECommerce.CartItem) :
    ECommerce.productFor (ECommerce.stockMap products mpid qty) it =
      (ECommerce.productFor products it).map
        (fun p => if p.id == mpid then { p with stock := p.stock - qty } else p) := by
  unfold ECommerce.productFor
  exact find?_stockMap products mpid it.productId qty

/-- Helper: reading stockSufficient as an existential. -/
theorem stockSufficient_iff (products : List ECommerce.Product)
    (it : ECommerce.CartItem) :
    ECommerce.stockSufficient products it = true ↔
      ∃ p, ECommerce.productFor products it = some p ∧ it.quantity ≤ p.stock := by
  unfold ECommerce.stockSufficient
  cases h : ECommerce.productFor products it <;> simp

/-- Helper: reading stockShort as an existential. -/
theorem stockShort_iff (products : List ECommerce.Product)
    (it : ECommerce.CartItem) :
    ECommerce.stockShort products it = true ↔
      ∃ p, ECommerce.productFor products it = some p ∧ p.stock < it.quantity := by
  unfold ECommerce.stockShort
  cases h : ECommerce.productFor products it <;> simp

/-- Helper: with one cart line short on stock, every line's product present and
cart product ids unique (the (cart, product) uniqueness constraint), the
checkout loop raises the insufficient-stock error. -/
theorem checkoutLoop_stock_violation
    (items : List ECommerce.CartItem) (products : List ECommerce.Product)
    (ois : List ECommerce.OrderItem) (total : ℚ)
    (hnd : (items.map ECommerce.CartItem.productId).Nodup)
    (hex : ∀ it ∈ items, (ECommerce.productFor products it).isSome = true)
    (hviol : ∃ it ∈ items, ECommerce.stockShort products it = true) :
    ∃ n, ECommerce.checkoutLoop products items ois total =
      Except.error (ECommerce.LoopErr.stockErr n) := by
  induction items generalizing products ois total with
  | nil =>
    obtain ⟨it, hit, _⟩ := hviol
    exact absurd hit (List.not_mem_nil it)
  | cons item rest ih =>
    obtain ⟨p, hp⟩ := Option.isSome_iff_exists.mp (hex item (List.mem_cons_self item rest))
    have hpfind : products.find? (fun q => q.id == item.productId) = some p := hp
    have hstep : ECommerce.checkoutLoop products (item :: rest) ois total =
        if p.stock < item.quantity then
          Except.error (ECommerce.LoopErr.stockErr p.name)
        else
          ECommerce.checkoutLoop (ECommerce.stockMap products p.id item.quantity)
            rest
            (ois ++ [{ productId := p.id, quantity := item.quantity,
                       price_at_purchase := p.price }])
            (total + p.price * (item.quantity : ℚ)) := by
      conv_lhs => rw [ECommerce.checkoutLoop, hpfind]
    by_cases hlt : p.stock < item.quantity
    · refine ⟨p.name, ?_⟩
      rw [hstep, if_pos hlt]
    · rw [List.map_cons, List.nodup_cons] at hnd
      have hpid : p.id = item.productId := by
        simpa using List.find?_some hpfind
      obtain ⟨it, hit, hshort⟩ := hviol
      have hit1 : it ∈ rest := by
        rcases List.mem_cons.mp hit with rfl | h
        · obtain ⟨q, hq, hqlt⟩ := (stockShort_iff products it).mp hshort
          rw [show ECommerce.productFor products it =
            products.find? (fun x => x.id == it.productId) from rfl, hpfind] at hq
          obtain rfl := Option.some.inj hq
          exact absurd hqlt hlt
        · exact h
      have hitpid : it.productId ≠ item.productId := by
        intro hEq
        exact hnd.1 (hEq ▸ List.mem_map.mpr ⟨it, hit1, rfl⟩)
      rw [hstep, if_neg hlt]
      refine ih (ECommerce.stockMap products p.id item.quantity) _ _ hnd.2 ?_ ?_
      · intro r hr
        obtain ⟨pr, hpr⟩ :=
          Option.isSome_iff_exists.mp (hex r (List.mem_cons_of_mem item hr))
        rw [productFor_stockMap, hpr]
        rfl
      · refine ⟨it, hit1, ?_⟩
        obtain ⟨q, hq, hqlt⟩ := (stockShort_iff products it).mp hshort
        have hqid : q.id = it.productId := by
          have h0 : ECommerce.productFor products it = some q := hq
          unfold ECommerce.productFor at h0
          simpa using List.find?_some h0
        rw [stockShort_iff]
        refine ⟨q, ?_, hqlt⟩
        rw [productFor_stockMap, hq, Option.map_some']
        rw [if_neg (show ¬ ((q.id == p.id) = true) by
          simp [hqid, hpid, hitpid])]

/-- C2: when the user's cart contains at least one line whose requested
quantity exceeds its product's stock (every line's product existing and cart
product ids unique), create_order fails with the insufficient-stock client
error, and the returned state is the input state: no stock decrement, no order
and no cart change survives — the decrements executed for lines preceding the
offending one are rolled back by the atomic transaction. -/
theorem c2_checkout_insufficient_stock_rolls_back (s : ECommerce.Shop)
    (userId : Nat) (cart : ECommerce.Cart)
    (hcart : s.carts.find? (fun c => c.userId == userId) = some cart)
    (hnd : (cart.items.map ECommerce.CartItem.productId).Nodup)
    (hex : ∀ it ∈ cart.items, (ECommerce.productFor s.products it).isSome = true)
    (hviol : ∃ it ∈ cart.items, ECommerce.stockShort s.products it = true) :
    ∃ n, ECommerce.create_order s userId =
      (s, ECommerce.CheckoutResult.insufficientStock n) := by
  obtain ⟨n, hn⟩ :=
    checkoutLoop_stock_violation cart.items s.products [] 0 hnd hex hviol
  have hne : cart.items ≠ [] := by
    intro hnil
    obtain ⟨it, hit, _⟩ := hviol
    rw [hnil] at hit
    exact absurd hit (List.not_mem_nil it)
  have hie : cart.items.isEmpty = false := List.isEmpty_eq_false.mpr hne
  refine ⟨n, ?_⟩
  simp [ECommerce.create_order, hcart, hie, hn]

/-- Witness for C2: product 2 has stock 1 but the cart asks for 3. -/
theorem c2_witness :
    ∃ n, ECommerce.create_order
      ⟨[⟨1, "A", 10, 5, true⟩, ⟨2, "B", 5, 1, true⟩],
       [⟨7, [⟨1, 2⟩, ⟨2, 3⟩]⟩], [], 1⟩ 7 =
      (⟨[⟨1, "A", 10, 5, true⟩, ⟨2, "B", 5, 1, true⟩],
        [⟨7, [⟨1, 2⟩, ⟨2, 3⟩]⟩], [], 1⟩,
       ECommerce.CheckoutResult.insufficientStock n) :=
  c2_checkout_insufficient_stock_rolls_back
    ⟨[⟨1, "A", 10, 5, true⟩, ⟨2, "B", 5, 1, true⟩],
     [⟨7, [⟨1, 2⟩, ⟨2, 3⟩]⟩], [], 1⟩ 7 ⟨7, [⟨1, 2⟩, ⟨2, 3⟩]⟩
    (by rfl) (by decide) (by decide) ⟨⟨2, 3⟩, by decide, by decide⟩

/-- Helper: when every cart line's product covers the requested quantity and
cart product ids are unique, the checkout loop succeeds, appending one
OrderItem per line priced at the product's current price, adding
`price * quantity` per line to the total, and decrementing each line's product
stock by the line's quantity while leaving every other product untouched. -/
theorem checkoutLoop_all_in_stock
    (items : List ECommerce.CartItem) (products : List ECommerce.Product)
    (ois : List ECommerce.OrderItem) (total : ℚ)
    (hnd : (items.map ECommerce.CartItem.productId).Nodup)
    (hstock : ∀ it ∈ items, ECommerce.stockSufficient products it = true) :
    ∃ products1,
      ECommerce.checkoutLoop products items ois total =
        Except.ok (products1, ois ++ items.map (ECommerce.itemOf products),
          total + (items.map (fun it =>
            ((ECommerce.priceOf products it.productId).getD 0) *
              (it.quantity : ℚ))).sum) ∧
      (∀ it ∈ items, ECommerce.stockOf products1 it.productId =
        (ECommerce.stockOf products it.productId).map (fun z => z - it.quantity)) ∧
      (∀ pid, (∀ it ∈ items, it.productId ≠ pid) →
        ECommerce.stockOf products1 pid = ECommerce.stockOf products pid) := by
  induction items generalizing products ois total with
  | nil =>
    refine ⟨products, ?_, ?_, ?_⟩
    · simp [ECommerce.checkoutLoop]
    · intro it hit
      exact absurd hit (List.not_mem_nil it)
    · intro pid _
      rfl
  | cons item rest ih =>
    obtain ⟨p, hp, hqty⟩ := (stockSufficient_iff products item).mp
      (hstock item (List.mem_cons_self item rest))
    have hpfind : products.find? (fun q => q.id == item.productId) = some p := hp
    have hpid : p.id = item.productId := by
      have h0 := hp
      unfold ECommerce.productFor at h0
      simpa using List.find?_some h0
    rw [List.map_cons, List.nodup_cons] at hnd
    have hlt : ¬ p.stock < item.quantity := not_lt.mpr hqty
    have hstep : ECommerce.checkoutLoop products (item :: rest) ois total =
        if p.stock < item.quantity then
          Except.error (ECommerce.LoopErr.stockErr p.name)
        else
          ECommerce.checkoutLoop (ECommerce.stockMap products p.id item.quantity)
            rest
            (ois ++ [{ productId := p.id, quantity := item.quantity,
                       price_at_purchase := p.price }])
            (total + p.price * (item.quantity : ℚ)) := by
      conv_lhs => rw [ECommerce.checkoutLoop, hpfind]
    have hstock1 : ∀ r ∈ rest,
        ECommerce.stockSufficient
          (ECommerce.stockMap products p.id item.quantity) r = true := by
      intro r hr
      obtain ⟨q, hq, hqq⟩ := (stockSufficient_iff products r).mp
        (hstock r (List.mem_cons_of_mem item hr))
      have hqid : q.id = r.productId := by
        have h0 := hq
        unfold ECommerce.productFor at h0
        simpa using List.find?_some h0
      have hrpid : r.productId ≠ item.productId := by
        intro hEq
        exact hnd.1 (hEq ▸ List.mem_map.mpr ⟨r, hr, rfl⟩)
      rw [stockSufficient_iff]
      refine ⟨q, ?_, hqq⟩
      rw [productFor_stockMap, hq, Option.map_some']
      rw [if_neg (show ¬ ((q.id == p.id) = true) by simp [hqid, hpid, hrpid])]
    obtain ⟨products1, hok, hstk, hunch⟩ := ih
      (ECommerce.stockMap products p.id item.quantity)
      (ois ++ [{ productId := p.id, quantity := item.quantity,
                 price_at_purchase := p.price }])
      (total + p.price * (item.quantity : ℚ)) hnd.2 hstock1
    have hpr : (ECommerce.priceOf products item.productId).getD 0 = p.price := by
      unfold ECommerce.priceOf
      rw [hpfind]
      rfl
    have hoi : ({ productId := p.id,
                  quantity := item.quantity,
                  price_at_purchase := p.price } : ECommerce.OrderItem) =
        ECommerce.itemOf products item := by
      unfold ECommerce.itemOf
      rw [hpr, hpid]
    have hmapcong :
        rest.map (ECommerce.itemOf (ECommerce.stockMap products p.id item.quantity)) =
        rest.map (ECommerce.itemOf products) := by
      apply List.map_congr_left
      intro r _
      unfold ECommerce.itemOf
      rw [priceOf_stockMap]
    have hsumcong :
        rest.map (fun it =>
          ((ECommerce.priceOf (ECommerce.stockMap products p.id item.quantity)
            it.productId).getD 0) * (it.quantity : ℚ)) =
        rest.map (fun it =>
          ((ECommerce.priceOf products it.productId).getD 0) * (it.quantity : ℚ)) := by
      apply List.map_congr_left
      intro r _
      rw [priceOf_stockMap]
    refine ⟨products1, ?_, ?_, ?_⟩
    · rw [hstep, if_neg hlt, hok, hmapcong, hsumcong, hoi]
      rw [List.map_cons, List.map_cons, List.sum_cons, hpr]
      rw [add_assoc]
      simp [List.append_assoc]
    · intro it hit
      rcases List.mem_cons.mp hit with rfl | hit1
      · have h1 : ECommerce.stockOf products1 it.productId =
            ECommerce.stockOf (ECommerce.stockMap products p.id it.quantity)
              it.productId := by
          apply hunch
          intro r hr hEq
          exact hnd.1 (hEq ▸ List.mem_map.mpr ⟨r, hr, rfl⟩)
        rw [h1, ← hpid, stockOf_stockMap_eq]
      · have hitpid : it.productId ≠ item.productId := by
          intro hEq
          exact hnd.1 (hEq ▸ List.mem_map.mpr ⟨it, hit1, rfl⟩)
        rw [hstk it hit1, stockOf_stockMap_ne]
        rw [hpid]
        exact hitpid
    · intro pid hpid0
      have h1 : ECommerce.stockOf products1 pid =
          ECommerce.stockOf (ECommerce.stockMap products p.id item.quantity) pid := by
        apply hunch
        intro r hr
        exact hpid0 r (List.mem_cons_of_mem item hr)
      rw [h1, stockOf_stockMap_ne]
      rw [hpid]
      intro hEq
      exact hpid0 item (List.mem_cons_self item rest) hEq.symm

/-- C1 (amended with N ≥ 1): when the user's cart exists and holds at least
one line, every line's product covers the requested quantity, and cart product
ids are unique, create_order creates exactly one order whose line count equals
the cart's, whose total_amount is the sum of `price_at_purchase * quantity`
over its lines with each price_at_purchase being the product's current price,
decrements each purchased product's stock by exactly the purchased quantity
(leaving all other stocks unchanged), and leaves the cart with zero lines. -/
theorem c1_checkout_success (s : ECommerce.Shop) (userId : Nat)
    (cart : ECommerce.Cart)
    (hcart : s.carts.find? (fun c => c.userId == userId) = some cart)
    (hne : cart.items ≠ [])
    (hnd : (cart.items.map ECommerce.CartItem.productId).Nodup)
    (hstock : ∀ it ∈ cart.items, ECommerce.stockSufficient s.products it = true) :
    ∃ s1 order,
      ECommerce.create_order s userId = (s1, ECommerce.CheckoutResult.created order) ∧
      s1.orders = s.orders ++ [order] ∧
      order.items.length = cart.items.length ∧
      order.total_amount = (order.items.map
        (fun oi => oi.price_at_purchase * (oi.quantity : ℚ))).sum ∧
      (∀ oi ∈ order.items, ECommerce.priceOf s.products oi.productId =
        some oi.price_at_purchase) ∧
      (∀ it ∈ cart.items, ECommerce.stockOf s1.products it.productId =
        (ECommerce.stockOf s.products it.productId).map (fun z => z - it.quantity)) ∧
      (∀ pid, (∀ it ∈ cart.items, it.productId ≠ pid) →
        ECommerce.stockOf s1.products pid = ECommerce.stockOf s.products pid) ∧
      ECommerce.cartItemsOf s1 userId = [] := by
  obtain ⟨products1, hok, hstk, hunch⟩ :=
    checkoutLoop_all_in_stock cart.items s.products [] 0 hnd hstock
  have hie : cart.items.isEmpty = false := List.isEmpty_eq_false.mpr hne
  have hres : ECommerce.create_order s userId =
      ({ s with
          products := products1,
          orders := s.orders ++
            [{ id := s.nextOrderId, userId := userId, status := "PENDING",
               total_amount := 0 + (cart.items.map (fun it =>
                 ((ECommerce.priceOf s.products it.productId).getD 0) *
                   (it.quantity : ℚ))).sum,
               items := [] ++ cart.items.map (ECommerce.itemOf s.products) }],
          carts := s.carts.map (fun c =>
            if c.userId == userId then { c with items := [] } else c),
          nextOrderId := s.nextOrderId + 1 },
       ECommerce.CheckoutResult.created
         { id := s.nextOrderId, userId := userId, status := "PENDING",
           total_amount := 0 + (cart.items.map (fun it =>
             ((ECommerce.priceOf s.products it.productId).getD 0) *
               (it.quantity : ℚ))).sum,
           items := [] ++ cart.items.map (ECommerce.itemOf s.products) }) := by
    simp only [ECommerce.create_order, hcart]
    rw [if_neg (show ¬ (cart.items.isEmpty = true) by simp [hie]), hok]
  refine ⟨_, _, hres, rfl, ?_, ?_, ?_, ?_, ?_, ?_⟩
  · simp
  · simp only [List.nil_append, List.map_map, zero_add]
    apply congrArg List.sum
    apply List.map_congr_left
    intro it _
    rfl
  · intro oi hoi
    rw [List.nil_append, List.mem_map] at hoi
    obtain ⟨it, hit, rfl⟩ := hoi
    obtain ⟨q, hq, _⟩ := (stockSufficient_iff s.products it).mp (hstock it hit)
    have hq1 : ECommerce.priceOf s.products it.productId = some q.price := by
      unfold ECommerce.priceOf
      unfold ECommerce.productFor at hq
      rw [hq]
      rfl
    show ECommerce.priceOf s.products it.productId =
      some ((ECommerce.priceOf s.products it.productId).getD 0)
    rw [hq1]
    rfl
  · exact hstk
  · exact hunch
  · unfold ECommerce.cartItemsOf
    have hpred : ((fun c : ECommerce.Cart => c.userId == userId) ∘ fun c =>
        if c.userId == userId then { c with items := [] } else c) =
        (fun c : ECommerce.Cart => c.userId == userId) := by
      funext c
      by_cases h : (c.userId == userId) = true <;> simp [Function.comp, h]
    show ((((s.carts.map (fun c =>
        if c.userId == userId then { c with items := [] } else c)).find?
        (fun c => c.userId == userId)).map (fun c => c.items)).getD []) = []
    rw [List.find?_map, hpred, hcart, Option.map_some']
    rw [if_pos (List.find?_some hcart)]
    rfl

/-- Counterexample to C1 as stated: with an existing cart holding N = 0 line
items (every one of its zero lines trivially in stock), create_order answers
the empty-cart client error and creates no order, instead of an order with
zero lines. -/
theorem c1_counterexample_empty_cart :
    ECommerce.create_order ⟨[], [⟨1, []⟩], [], 1⟩ 1 =
      (⟨[], [⟨1, []⟩], [], 1⟩, ECommerce.CheckoutResult.emptyCart) := by
  rfl

/-- Witness for C1 at the spec's example scenario: ProductA qty 2 at 10 and
ProductB qty 1 at 5, both in stock. -/
theorem c1_witness :
    ∃ s1 order,
      ECommerce.create_order
        ⟨[⟨1, "A", 10, 5, true⟩, ⟨2, "B", 5, 1, true⟩],
         [⟨7, [⟨1, 2⟩, ⟨2, 1⟩]⟩], [], 1⟩ 7 =
        (s1, ECommerce.CheckoutResult.created order) ∧
      s1.orders = [] ++ [order] ∧
      order.items.length = ([⟨1, 2⟩, ⟨2, 1⟩] : List ECommerce.CartItem).length ∧
      order.total_amount = (order.items.map
        (fun oi => oi.price_at_purchase * (oi.quantity : ℚ))).sum ∧
      (∀ oi ∈ order.items,
        ECommerce.priceOf [⟨1, "A", 10, 5, true⟩, ⟨2, "B", 5, 1, true⟩] oi.productId =
          some oi.price_at_purchase) ∧
      (∀ it ∈ ([⟨1, 2⟩, ⟨2, 1⟩] : List ECommerce.CartItem),
        ECommerce.stockOf s1.products it.productId =
          (ECommerce.stockOf [⟨1, "A", 10, 5, true⟩, ⟨2, "B", 5, 1, true⟩]
            it.productId).map (fun z => z - it.quantity)) ∧
      (∀ pid, (∀ it ∈ ([⟨1, 2⟩, ⟨2, 1⟩] : List ECommerce.CartItem),
          it.productId ≠ pid) →
        ECommerce.stockOf s1.products pid =
          ECommerce.stockOf [⟨1, "A", 10, 5, true⟩, ⟨2, "B", 5, 1, true⟩] pid) ∧
      ECommerce.cartItemsOf s1 7 = [] :=
  c1_checkout_success
    ⟨[⟨1, "A", 10, 5, true⟩, ⟨2, "B", 5, 1, true⟩],
     [⟨7, [⟨1, 2⟩, ⟨2, 1⟩]⟩], [], 1⟩ 7 ⟨7, [⟨1, 2⟩, ⟨2, 1⟩]⟩
    (by rfl) (by decide) (by decide) (by decide)

end Homework25
